import Mathlib

set_option maxRecDepth 4000

/-!
Shallow embedding of the YubiKey PIV transaction layer
(`src/transaction.rs`).  The device at the other end of the PC/SC
transport is modelled as a finite list of `Response`s, consumed one per
transmitted APDU frame; running out of responses stands for a transport
failure.  Every model function returns, alongside its result, the list
of frames it transmitted, in send order.
-/

namespace YkPiv

/-- Error type of the crate (`error.rs` is not under `src/`; the variants
below are the ones `transaction.rs` constructs, plus `Transport` standing
for a PC/SC communication failure propagated by `transmit`). -/
inductive Error
  | GenericError
  | SizeError
  | ParseError
  | AuthenticationError
  | WrongPin (tries : Nat)
  | PinLocked
  | NotFound
  | Transport
deriving DecidableEq, Repr

/-- A card response: a 16-bit status word plus a payload.  Mirrors
`apdu::Response` (status words kept as the raw code). -/
structure Response where
  sw : Nat
  data : List Nat
deriving DecidableEq, Repr

/-- One physical APDU frame as transmitted to the card: class byte,
instruction byte, the two parameter bytes and the data field. -/
structure APDUFrame where
  cla : Nat
  ins : Nat
  p1 : Nat
  p2 : Nat
  data : List Nat
deriving DecidableEq, Repr

/-- Modelled from the spec: semantic classification of a raw status word
(`apdu::StatusWords` is not under `src/`).  Per the spec's wire format:
`0x9000` success, `0x6983` authentication blocked, `0x6982` security
status not satisfied, `0x6A88` not found, `0x63 CN` verify failed with
N tries remaining (N the low nibble). -/
inductive SWords
  | Success
  | AuthBlockedError
  | SecurityStatusError
  | NotFoundError
  | VerifyFailError (tries : Nat)
  | Other (w : Nat)
deriving DecidableEq, Repr

/-- Modelled from the spec: decode a raw 2-byte status word. -/
def swordsOf (w : Nat) : SWords :=
  if w = 0x9000 then .Success
  else if w = 0x6983 then .AuthBlockedError
  else if w = 0x6982 then .SecurityStatusError
  else if w = 0x6a88 then .NotFoundError
  else if w / 256 = 0x63 ∧ (w % 256) / 16 = 0xc then .VerifyFailError (w % 16)
  else .Other w

/-- Modelled from the spec: instruction byte for application selection
(`apdu::Ins`, not under `src/`). -/
def insSelectApplication : Nat := 0xa4

/-- Modelled from the spec: instruction byte for PIN verification. -/
def insVerify : Nat := 0x20

/-- Modelled from the spec: instruction byte for changing a PIN/PUK
reference. -/
def insChangeReference : Nat := 0x24

/-- Modelled from the spec: instruction byte for unblocking the PIN. -/
def insResetRetry : Nat := 0x2c

/-- Modelled from the spec: instruction byte of the authenticated
sign/decipher command. -/
def insAuthenticate : Nat := 0x87

/-- Modelled from the spec: instruction byte of the YK5 serial-number
command. -/
def insGetSerial : Nat := 0xf8

/-- Modelled from the spec: instruction byte of the dedicated
get-more-response command used by the continuation engine. -/
def insGetResponseApdu : Nat := 0xc0

/-- Modelled from the spec: primary PIV application identifier. -/
def PIV_AID : List Nat := [0xa0, 0x00, 0x00, 0x03, 0x08]

/-- Modelled from the spec: legacy (YubiKey) applet identifier used by
the YK4 serial-retrieval path. -/
def YK_AID : List Nat := [0xa0, 0x00, 0x00, 0x05, 0x27, 0x20, 0x01, 0x01]

/-- Wrapping `usize` subtraction, as performed by release-mode Rust in
`out_data.len() - response.data().len()` (both operands are below
`2^64`). -/
def usizeSub (a b : Nat) : Nat := (a + (2 ^ 64 - b % 2 ^ 64)) % 2 ^ 64

/-- Outcome of the outbound loop of `transfer_data`: either the loop
returned early with a (failed) `Response` built from the accumulated
output, or it ran to completion with a final status word and the
accumulated output. -/
inductive OutExit
  | early (r : Response)
  | done (sw : Nat) (outData : List Nat)
deriving DecidableEq, Repr

/-- The continuation frame of an outbound chain: class byte `0x10`, the
rest of the header from the 4-byte template. -/
def contFrame (templ : List Nat) (chunk : List Nat) : APDUFrame :=
  ⟨0x10, templ.getD 1 0, templ.getD 2 0, templ.getD 3 0, chunk⟩

/-- The final frame of an outbound chain: the template's own class byte. -/
def finalFrame (templ : List Nat) (chunk : List Nat) : APDUFrame :=
  ⟨templ.getD 0 0, templ.getD 1 0, templ.getD 2 0, templ.getD 3 0, chunk⟩

/-- The dedicated get-more frame issued by the inbound continuation
loop (`APDU::new(Ins::GetResponseApdu)`). -/
def getMoreFrame : APDUFrame := ⟨0, insGetResponseApdu, 0, 0, []⟩

/-- Outbound loop of `Transaction::transfer_data` (lines 358–399):
while more than one chunk remains, send 255 bytes under class byte
`0x10`, else send the remainder under the template's class byte.  After
each chunk: a status that is neither success nor class `0x61` returns
early with the output accumulated so far; then the size guard
`!out_data.is_empty() && out_data.len() - response.data().len() > max_out`
raises `SizeError`; otherwise the response payload is appended.
`inData` is the not-yet-sent suffix of the input, `outData` the
accumulated output. -/
def transferOut (templ : List Nat) (maxOut : Nat) (device : List Response)
    (inData outData : List Nat) :
    List APDUFrame × List Response × Except Error OutExit :=
  let more := 255 < inData.length
  let frame := if more then contFrame templ (inData.take 255) else finalFrame templ inData
  match device with
  | [] => ([frame], [], .error .Transport)
  | r :: rest =>
    if r.sw ≠ 0x9000 ∧ r.sw / 256 ≠ 0x61 then
      ([frame], rest, .ok (.early ⟨r.sw, outData⟩))
    else if outData ≠ [] ∧ maxOut < usizeSub outData.length r.data.length then
      ([frame], rest, .error .SizeError)
    else if more then
      let res := transferOut templ maxOut rest (inData.drop 255) (outData ++ r.data)
      (frame :: res.1, res.2.1, res.2.2)
    else
      ([frame], rest, .ok (.done r.sw (outData ++ r.data)))

/-- Inbound continuation loop of `Transaction::transfer_data` (lines
401–425): while the status class byte is `0x61`, issue a get-more
frame; a status that is neither success nor class `0x61` returns a
`Response` with that status and an EMPTY payload; the size guard
`out_data.len() + response.data().len() > max_out` raises `SizeError`;
otherwise the payload is appended and the loop continues. -/
def transferIn (maxOut : Nat) (device : List Response) (sw : Nat)
    (outData : List Nat) : List APDUFrame × Except Error Response :=
  if sw / 256 = 0x61 then
    match device with
    | [] => ([getMoreFrame], .error .Transport)
    | r :: rest =>
      if r.sw ≠ 0x9000 ∧ r.sw / 256 ≠ 0x61 then
        ([getMoreFrame], .ok ⟨r.sw, []⟩)
      else if maxOut < outData.length + r.data.length then
        ([getMoreFrame], .error .SizeError)
      else
        let res := transferIn maxOut rest r.sw (outData ++ r.data)
        (getMoreFrame :: res.1, res.2)
  else ([], .ok ⟨sw, outData⟩)

/-- `Transaction::transfer_data` (lines 348–428): run the outbound
phase, then — unless it returned early — the inbound continuation
phase keyed on the last status word. -/
def transferData (templ inData : List Nat) (maxOut : Nat)
    (device : List Response) : List APDUFrame × Except Error Response :=
  match transferOut templ maxOut device inData [] with
  | (fs, _, .error e) => (fs, .error e)
  | (fs, _, .ok (.early r)) => (fs, .ok r)
  | (fs, dev, .ok (.done sw outData)) =>
    let res := transferIn maxOut dev sw outData
    (fs ++ res.1, res.2)

/-- `CB_PIN_MAX` (line 8). -/
def CB_PIN_MAX : Nat := 8

/-- `Transaction::verify_pin` (lines 148–173).  A PIN longer than 8
bytes is rejected with `SizeError` before any transmission; an empty
PIN sends no data field; otherwise the PIN is left-aligned in an
8-byte buffer filled with `0xff`.  The status word of the single
response is then mapped. -/
def verify_pin (pin : List Nat) (device : List Response) :
    List APDUFrame × Except Error Unit :=
  if CB_PIN_MAX < pin.length then ([], .error .SizeError)
  else
    let data := if pin = [] then [] else pin ++ List.replicate (CB_PIN_MAX - pin.length) 0xff
    let frame : APDUFrame := ⟨0, insVerify, 0x00, 0x80, data⟩
    match device with
    | [] => ([frame], .error .Transport)
    | r :: _ =>
      ([frame],
       match swordsOf r.sw with
       | .Success => .ok ()
       | .AuthBlockedError => .error (.WrongPin 0)
       | .VerifyFailError tries => .error (.WrongPin tries)
       | _ => .error .GenericError)

/-- `ChangeRefAction` (lines 10–14). -/
inductive ChangeRefAction
  | ChangePin
  | ChangePuk
  | UnblockPin
deriving DecidableEq, Repr

/-- The 4-byte APDU template chosen by `change_ref` for each action
(lines 189–193; `PIN = 0x80`, `PUK = 0x81`). -/
def changeRefTempl (action : ChangeRefAction) : List Nat :=
  match action with
  | .ChangePin => [0, insChangeReference, 0, 0x80]
  | .ChangePuk => [0, insChangeReference, 0, 0x81]
  | .UnblockPin => [0, insResetRetry, 0, 0x80]

/-- The 16-byte payload of `change_ref` (lines 195–197): a buffer
filled with `0xff`, the current secret copied to offset 0 and the new
secret copied to offset 8. -/
def changeRefPayload (currentPin newPin : List Nat) : List Nat :=
  (currentPin ++ List.replicate (CB_PIN_MAX - currentPin.length) 0xff) ++
    (newPin ++ List.replicate (CB_PIN_MAX - newPin.length) 0xff)

/-- `Transaction::change_ref` (lines 176–215).  Either secret longer
than 8 bytes is rejected with `SizeError` before any transmission;
otherwise the 16-byte padded payload is sent through `transfer_data`
with output ceiling `0xFF` and the resulting status word mapped. -/
def change_ref (action : ChangeRefAction) (currentPin newPin : List Nat)
    (device : List Response) : List APDUFrame × Except Error Unit :=
  if CB_PIN_MAX < currentPin.length ∨ CB_PIN_MAX < newPin.length then
    ([], .error .SizeError)
  else
    match transferData (changeRefTempl action) (changeRefPayload currentPin newPin)
        0xFF device with
    | (fs, .error e) => (fs, .error e)
    | (fs, .ok r) =>
      (fs,
       match swordsOf r.sw with
       | .Success => .ok ()
       | .AuthBlockedError => .error .PinLocked
       | .VerifyFailError tries => .error (.WrongPin tries)
       | _ => .error .GenericError)

/-- `Version` (major/minor/patch, from `yubikey.rs`, declarations only). -/
structure Version where
  major : Nat
  minor : Nat
  patch : Nat
deriving DecidableEq, Repr

/-- Result of a model run that, besides succeeding or failing with an
`Error`, may panic (a Rust `panic!`, e.g. an out-of-bounds slice). -/
inductive RunResult (α : Type)
  | ok (a : α)
  | err (e : Error)
  | panicked
deriving DecidableEq, Repr

/-- Big-endian integer decode (`u32::from_be_bytes`). -/
def u32be (l : List Nat) : Nat := l.foldl (fun acc b => acc * 256 + b) 0

/-- `<&[u8] as TryInto<[u8; 4]>>::try_into`: succeeds exactly when the
slice has length 4. -/
def tryInto4 (l : List Nat) : Option (List Nat) :=
  if l.length = 4 then some l else none

/-- The tail of `get_serial` (lines 141–144):
`response.data()[..4].try_into().map(u32 from be).map_err(SizeError)`.
The slice expression `data[..4]` panics when fewer than 4 bytes are
present; otherwise `try_into` runs on the 4-byte slice. -/
def decodeSerial (data : List Nat) : RunResult Nat :=
  if data.length < 4 then .panicked
  else
    match tryInto4 (data.take 4) with
    | some a => .ok (u32be a)
    | none => .err .SizeError

/-- The application-selection frame (`APDU::new(Ins::SelectApplication).p1(0x04).data(aid)`). -/
def selectFrame (aid : List Nat) : APDUFrame := ⟨0, insSelectApplication, 0x04, 0, aid⟩

/-- The legacy serial-retrieval frame (`APDU::new(0x01).p1(0x10)`, line 103). -/
def serialYkFrame : APDUFrame := ⟨0, 0x01, 0x10, 0, []⟩

/-- The YK5 serial-retrieval frame (`APDU::new(Ins::GetSerial)`, line 128). -/
def serialPivFrame : APDUFrame := ⟨0, insGetSerial, 0, 0, []⟩

/-- `Transaction::get_serial` (lines 89–145).  Major version below 5:
select the YK applet, issue the legacy serial command, reselect the
PIV applet — aborting with `GenericError` at the first non-success
status.  Major version 5 or above: one dedicated command.  The
surviving response's payload is decoded by `decodeSerial`. -/
def get_serial (version : Version) (device : List Response) :
    List APDUFrame × RunResult Nat :=
  if version.major < 5 then
    match device with
    | [] => ([selectFrame YK_AID], .err .Transport)
    | r1 :: d1 =>
      if r1.sw ≠ 0x9000 then ([selectFrame YK_AID], .err .GenericError)
      else
        match d1 with
        | [] => ([selectFrame YK_AID, serialYkFrame], .err .Transport)
        | r2 :: d2 =>
          if r2.sw ≠ 0x9000 then
            ([selectFrame YK_AID, serialYkFrame], .err .GenericError)
          else
            match d2 with
            | [] =>
              ([selectFrame YK_AID, serialYkFrame, selectFrame PIV_AID], .err .Transport)
            | r3 :: _ =>
              if r3.sw ≠ 0x9000 then
                ([selectFrame YK_AID, serialYkFrame, selectFrame PIV_AID],
                 .err .GenericError)
              else
                ([selectFrame YK_AID, serialYkFrame, selectFrame PIV_AID],
                 decodeSerial r2.data)
  else
    match device with
    | [] => ([serialPivFrame], .err .Transport)
    | r :: _ =>
      if r.sw ≠ 0x9000 then ([serialPivFrame], .err .GenericError)
      else ([serialPivFrame], decodeSerial r.data)

/-- `AlgorithmId` (from `key.rs`, declarations only; the four
algorithms `authenticated_command` distinguishes). -/
inductive AlgorithmId
  | Rsa1024
  | Rsa2048
  | EccP256
  | EccP384
deriving DecidableEq, Repr

/-- Modelled from the spec: the algorithm identifier byte
(`impl From<AlgorithmId> for u8`, not under `src/`). -/
def algByte (a : AlgorithmId) : Nat :=
  match a with
  | .Rsa1024 => 0x06
  | .Rsa2048 => 0x07
  | .EccP256 => 0x11
  | .EccP384 => 0x14

/-- The input-size validation of `authenticated_command` (lines
258–282): RSA input must equal the key byte length exactly; an EC sign
input must not exceed the curve byte length, an EC decipher input must
equal twice the curve byte length plus one. -/
def acInvalid (algorithm : AlgorithmId) (decipher : Bool) (inLen : Nat) : Bool :=
  match algorithm with
  | .Rsa1024 => inLen != 128
  | .Rsa2048 => inLen != 256
  | .EccP256 => (!decipher && decide (32 < inLen)) || (decipher && inLen != 65)
  | .EccP384 => (!decipher && decide (48 < inLen)) || (decipher && inLen != 97)

/-- The length-field byte count computed by `authenticated_command`
(lines 284–290): 1 when `in_len < 0x80`, 2 when `in_len < 0xff`,
3 otherwise. -/
def lenBytes (inLen : Nat) : Nat :=
  if inLen < 0x80 then 1 else if inLen < 0xff then 2 else 3

/-- Modelled from the spec: the length form written by the TLV codec
(`serialization.rs`, not under `src/`): a literal byte below 128, a
`0x81` marker plus one byte up to 255, a `0x82` marker plus two
big-endian bytes above. -/
def lenForm (n : Nat) : List Nat :=
  if n < 128 then [n]
  else if n ≤ 255 then [0x81, n]
  else [0x82, n / 256 % 256, n % 256]

/-- Modelled from the spec: the number of length-field bytes the TLV
codec's magnitude rule prescribes (spec §3). -/
def tlvLenBytes (n : Nat) : Nat :=
  if n < 128 then 1 else if n ≤ 255 then 2 else 3

/-- Modelled from the spec: `Tlv::write` — tag byte, length form,
value. -/
def tlvEncode (tag : Nat) (value : List Nat) : List Nat :=
  tag :: lenForm value.length ++ value

/-- Modelled from the spec: `Tlv::parse` — read the tag, decode the
length form, check the declared length against the bytes available,
and return `(remaining, tag, value)`; an undersized or malformed
buffer is a parse failure. -/
def tlvParse (bytes : List Nat) : Option (List Nat × Nat × List Nat) :=
  match bytes with
  | [] => none
  | tag :: rest =>
    match rest with
    | [] => none
    | l0 :: r1 =>
      let hd : Option (Nat × List Nat) :=
        if l0 < 0x80 then some (l0, r1)
        else if l0 = 0x81 then
          match r1 with
          | [] => none
          | a :: r2 => some (a, r2)
        else if l0 = 0x82 then
          match r1 with
          | a :: b :: r2 => some (a * 256 + b, r2)
          | _ => none
        else none
      match hd with
      | none => none
      | some (len, body) =>
        if len ≤ body.length then some (body.drop len, tag, body.take len)
        else none

/-- The tag under which `authenticated_command` sends its input (lines
296–300): `0x85` for an elliptic-curve decipher, `0x81` otherwise. -/
def acDataTag (algorithm : AlgorithmId) (decipher : Bool) : Nat :=
  match algorithm, decipher with
  | .EccP256, true | .EccP384, true => 0x85
  | _, _ => 0x81

/-- `Transaction::authenticated_command` (lines 247–342).  Validates
the input size locally (no frame transmitted on violation); builds the
`0x7c`-wrapped request whose declared inner size uses `lenBytes` (the
`assert_eq!` on the inner `Tlv::write` length is modelled as a panic);
sends it through `transfer_data` with ceiling 1024; maps a non-success
status to `AuthenticationError` (security status) or `GenericError`;
on success parses the nested `0x7c`/`0x82` TLVs and returns the inner
value. -/
def authenticated_command (signIn : List Nat) (algorithm : AlgorithmId)
    (key : Nat) (decipher : Bool) (device : List Response) :
    List APDUFrame × RunResult (List Nat) :=
  let inLen := signIn.length
  let templ : List Nat := [0, insAuthenticate, algByte algorithm, key]
  if acInvalid algorithm decipher inLen then ([], .err .SizeError)
  else
    let bytes := lenBytes inLen
    let dataTlv := tlvEncode (acDataTag algorithm decipher) signIn
    if dataTlv.length ≠ 1 + bytes + inLen then ([], .panicked)
    else
      let indata := (0x7c :: lenForm (inLen + bytes + 3)) ++ tlvEncode 0x82 [] ++ dataTlv
      match transferData templ indata 1024 device with
      | (fs, .error e) => (fs, .err e)
      | (fs, .ok r) =>
        if r.sw ≠ 0x9000 then
          (fs, .err (if swordsOf r.sw = .SecurityStatusError then .AuthenticationError
                     else .GenericError))
        else
          match tlvParse r.data with
          | none => (fs, .err .ParseError)
          | some (_, outerTag, outerValue) =>
            if outerTag ≠ 0x7c then (fs, .err .ParseError)
            else
              match tlvParse outerValue with
              | none => (fs, .err .ParseError)
              | some (_, innerTag, innerValue) =>
                if innerTag ≠ 0x82 then (fs, .err .ParseError)
                else (fs, .ok innerValue)

/-!  Theorems  -/

/-- Claim C8, counterexample: the claim prescribes 2 length-field bytes
for every input length between 128 and 255, but at the concrete length
255 the code's accounting (`lenBytes`) yields 3. -/
theorem lenBytes_magnitude_cex : 128 ≤ 255 ∧ 255 ≤ 255 ∧ lenBytes 255 ≠ 2 := by
  decide

/-- Claim C8 (amended): the length-field byte count follows the
codec's magnitude rule at every length up to 65535 except 255, where
the code accounts 3 bytes while the codec writes 2; the codec's length
form really has `tlvLenBytes` bytes; and every input length that
passes `authenticated_command`'s validation (length 255 never does)
satisfies the magnitude rule as originally claimed. -/
theorem lenBytes_magnitude_amended :
    (∀ n, n ≠ 255 → n ≤ 65535 → lenBytes n = tlvLenBytes n) ∧
    lenBytes 255 = 3 ∧
    (∀ n, (lenForm n).length = tlvLenBytes n) ∧
    (∀ a d n, acInvalid a d n = false → lenBytes n = tlvLenBytes n) := by
  refine ⟨?_, by decide, ?_, ?_⟩
  · intro n h1 h2
    simp only [lenBytes, tlvLenBytes]
    split_ifs <;> omega
  · intro n
    simp only [lenForm, tlvLenBytes]
    split_ifs <;> simp
  · intro a d n h
    have hn : n = 128 ∨ n = 256 ∨ n ≤ 48 ∨ n = 65 ∨ n = 97 := by
      cases a <;> cases d <;> simp [acInvalid] at h <;> omega
    simp only [lenBytes, tlvLenBytes]
    split_ifs <;> omega

/-- Claim C8, witness for the amended theorem at concrete inputs. -/
theorem lenBytes_magnitude_amended_witness :
    lenBytes 254 = tlvLenBytes 254 ∧ (lenForm 300).length = tlvLenBytes 300 ∧
    acInvalid .Rsa2048 false 256 = false ∧ lenBytes 256 = tlvLenBytes 256 :=
  ⟨lenBytes_magnitude_amended.1 254 (by decide) (by decide),
   lenBytes_magnitude_amended.2.2.1 300,
   by decide,
   lenBytes_magnitude_amended.2.2.2 .Rsa2048 false 256 (by decide)⟩

/-- Claim C7: `authenticated_command` rejects invalid input sizes
locally, with a `SizeError` and no transmitted frame: RSA-1024 demands
length exactly 128, RSA-2048 exactly 256; a P-256 (resp. P-384) sign
input must not exceed 32 (resp. 48) bytes; a P-256 (resp. P-384)
decipher input must have length exactly 65 (resp. 97). -/
theorem authenticated_command_validation (signIn : List Nat) (key : Nat)
    (device : List Response) :
    (signIn.length ≠ 128 → ∀ d, authenticated_command signIn .Rsa1024 key d device =
      ([], .err .SizeError)) ∧
    (signIn.length ≠ 256 → ∀ d, authenticated_command signIn .Rsa2048 key d device =
      ([], .err .SizeError)) ∧
    (32 < signIn.length → authenticated_command signIn .EccP256 key false device =
      ([], .err .SizeError)) ∧
    (signIn.length ≠ 65 → authenticated_command signIn .EccP256 key true device =
      ([], .err .SizeError)) ∧
    (48 < signIn.length → authenticated_command signIn .EccP384 key false device =
      ([], .err .SizeError)) ∧
    (signIn.length ≠ 97 → authenticated_command signIn .EccP384 key true device =
      ([], .err .SizeError)) := by
  refine ⟨?_, ?_, ?_, ?_, ?_, ?_⟩ <;>
    first
      | (intro h d; simp [authenticated_command, acInvalid, h])
      | (intro h; simp [authenticated_command, acInvalid, h])

/-- Claim C7, witness: concrete rejected inputs for each variant. -/
theorem authenticated_command_validation_witness :
    authenticated_command (List.replicate 127 0) .Rsa1024 0x9a false [] =
      ([], .err .SizeError) ∧
    authenticated_command (List.replicate 255 0) .Rsa2048 0x9a true [] =
      ([], .err .SizeError) ∧
    authenticated_command (List.replicate 33 0) .EccP256 0x9a false [] =
      ([], .err .SizeError) ∧
    authenticated_command (List.replicate 64 0) .EccP256 0x9a true [] =
      ([], .err .SizeError) ∧
    authenticated_command (List.replicate 49 0) .EccP384 0x9a false [] =
      ([], .err .SizeError) ∧
    authenticated_command (List.replicate 96 0) .EccP384 0x9a true [] =
      ([], .err .SizeError) :=
  ⟨(authenticated_command_validation (List.replicate 127 0) 0x9a []).1 (by simp) false,
   (authenticated_command_validation (List.replicate 255 0) 0x9a []).2.1 (by simp) true,
   (authenticated_command_validation (List.replicate 33 0) 0x9a []).2.2.1 (by simp),
   (authenticated_command_validation (List.replicate 64 0) 0x9a []).2.2.2.1 (by simp),
   (authenticated_command_validation (List.replicate 49 0) 0x9a []).2.2.2.2.1 (by simp),
   (authenticated_command_validation (List.replicate 96 0) 0x9a []).2.2.2.2.2 (by simp)⟩

/-- Claim C4: `verify_pin` sends no payload byte for an empty PIN;
for a PIN of length 1..8 it sends exactly 8 payload bytes, the PIN
left-aligned and `0xff`-padded; a PIN longer than 8 bytes is rejected
with a `SizeError` before any transmission; and the response status is
mapped: `0x9000` to ok, `0x6983` to wrong-PIN with 0 tries, `0x63Cn`
to wrong-PIN with `n` tries, anything else to a generic failure. -/
theorem verify_pin_spec (pin : List Nat) (r : Response) (rest : List Response) :
    (pin = [] → (verify_pin pin (r :: rest)).1 = [⟨0, insVerify, 0x00, 0x80, []⟩]) ∧
    (pin ≠ [] → pin.length ≤ 8 →
      (verify_pin pin (r :: rest)).1 =
        [⟨0, insVerify, 0x00, 0x80, pin ++ List.replicate (8 - pin.length) 0xff⟩] ∧
      (pin ++ List.replicate (8 - pin.length) 0xff).length = 8) ∧
    (8 < pin.length → verify_pin pin (r :: rest) = ([], .error .SizeError)) ∧
    (pin.length ≤ 8 →
      ((r.sw = 0x9000 → (verify_pin pin (r :: rest)).2 = .ok ()) ∧
       (r.sw = 0x6983 → (verify_pin pin (r :: rest)).2 = .error (.WrongPin 0)) ∧
       (r.sw / 256 = 0x63 → (r.sw % 256) / 16 = 0xc →
         (verify_pin pin (r :: rest)).2 = .error (.WrongPin (r.sw % 16))) ∧
       (r.sw ≠ 0x9000 → r.sw ≠ 0x6983 →
         ¬(r.sw / 256 = 0x63 ∧ (r.sw % 256) / 16 = 0xc) →
         (verify_pin pin (r :: rest)).2 = .error .GenericError))) := by
  refine ⟨?_, ?_, ?_, ?_⟩
  · intro h
    simp [verify_pin, CB_PIN_MAX, h]
  · intro h hle
    constructor
    · simp [verify_pin, CB_PIN_MAX, h, Nat.not_lt.mpr hle]
    · simp
      omega
  · intro h
    simp [verify_pin, CB_PIN_MAX, h]
  · intro hle
    have hlt : ¬ CB_PIN_MAX < pin.length := by simp [CB_PIN_MAX]; omega
    refine ⟨?_, ?_, ?_, ?_⟩
    · intro h
      simp [verify_pin, hlt, swordsOf, h]
    · intro h
      simp [verify_pin, hlt, swordsOf, h]
    · intro h1 h2
      have hne : r.sw ≠ 0x9000 := by omega
      have hne2 : r.sw ≠ 0x6983 := by omega
      have hne3 : r.sw ≠ 0x6982 := by omega
      have hne4 : r.sw ≠ 0x6a88 := by omega
      simp [verify_pin, hlt, swordsOf, hne, hne2, hne3, hne4, h1, h2]
    · intro h1 h2 h3
      simp [verify_pin, hlt, swordsOf, h1, h2]
      split_ifs with h4 h5 <;> simp_all

/-- Claim C4, witness: a 3-byte PIN against a `0x63c5` response and the
three other status classes, plus the oversized-PIN rejection. -/
theorem verify_pin_spec_witness :
    ((verify_pin [1, 2, 3] [⟨0x63c5, []⟩]).1 =
      [⟨0, insVerify, 0x00, 0x80, [1, 2, 3] ++ List.replicate 5 0xff⟩] ∧
     ([1, 2, 3] ++ List.replicate (8 - 3) 0xff).length = 8) ∧
    (verify_pin [1, 2, 3] [⟨0x63c5, []⟩]).2 = .error (.WrongPin 5) ∧
    verify_pin [1, 2, 3, 4, 5, 6, 7, 8, 9] [⟨0x9000, []⟩] = ([], .error .SizeError) ∧
    (verify_pin [] [⟨0x9000, []⟩]).1 = [⟨0, insVerify, 0x00, 0x80, []⟩] :=
  ⟨by
    have h := (verify_pin_spec [1, 2, 3] ⟨0x63c5, []⟩ []).2.1 (by decide) (by decide)
    simpa using h,
   (verify_pin_spec [1, 2, 3] ⟨0x63c5, []⟩ []).2.2.2 (by decide) |>.2.2.1
     (by decide) (by decide),
   (verify_pin_spec [1, 2, 3, 4, 5, 6, 7, 8, 9] ⟨0x9000, []⟩ []).2.2.1 (by decide),
   (verify_pin_spec [] ⟨0x9000, []⟩ []).1 rfl⟩

/-- The inbound continuation loop does nothing when the status class
byte is not `0x61`. -/
theorem transferIn_exit (maxOut : Nat) (device : List Response) (sw : Nat)
    (outData : List Nat) (h : sw / 256 ≠ 0x61) :
    transferIn maxOut device sw outData = ([], .ok ⟨sw, outData⟩) := by
  unfold transferIn
  rw [if_neg h]

/-- Taking the first 8 bytes of a concatenation whose first part has
length 8 yields that first part. -/
theorem take8_of_len8 (A B : List Nat) (h : A.length = 8) : (A ++ B).take 8 = A := by
  rw [← h, List.take_left]

/-- Dropping the first 8 bytes of a concatenation whose first part has
length 8 yields the second part. -/
theorem drop8_of_len8 (A B : List Nat) (h : A.length = 8) : (A ++ B).drop 8 = B := by
  rw [← h, List.drop_left]

/-- A single-chunk `transfer_data` exchange whose response is not
`0x61`-classed: one frame is sent under the template's class byte, and
the response comes back as-is (a success keeps its payload, a failure
returns the — empty — accumulated output). -/
theorem transferData_single (templ inData : List Nat) (maxOut : Nat)
    (r : Response) (rest : List Response) (hlen : inData.length ≤ 255)
    (hcla : r.sw / 256 ≠ 0x61) :
    transferData templ inData maxOut (r :: rest) =
      ([finalFrame templ inData], .ok ⟨r.sw, if r.sw = 0x9000 then r.data else []⟩) := by
  have hmore : ¬ 255 < inData.length := by omega
  rcases Decidable.em (r.sw = 0x9000) with h | h
  · have hIn : ∀ out, transferIn maxOut rest 0x9000 out = ([], .ok ⟨0x9000, out⟩) :=
      fun out => transferIn_exit _ _ _ _ (by norm_num)
    simp [transferData, transferOut, hmore, h, hIn]
  · simp [transferData, transferOut, hmore, h, hcla]

/-- Claim C5: `change_ref` rejects either secret longer than 8 bytes
with a `SizeError` before any transmission; otherwise it transmits a
single 16-byte payload, the current secret left-aligned `0xff`-padded
in the first 8 bytes and the new secret likewise in the last 8, and
maps the response status: success to ok, `0x6983` to `PinLocked`,
`0x63Cn` to wrong-secret with `n` tries, anything else to a generic
failure. -/
theorem change_ref_spec (a : ChangeRefAction) (cur new : List Nat)
    (r : Response) (rest : List Response) (hcla : r.sw / 256 ≠ 0x61) :
    (8 < cur.length ∨ 8 < new.length →
      change_ref a cur new (r :: rest) = ([], .error .SizeError)) ∧
    (cur.length ≤ 8 → new.length ≤ 8 →
      ((change_ref a cur new (r :: rest)).1.map APDUFrame.data =
         [changeRefPayload cur new] ∧
       (changeRefPayload cur new).length = 16 ∧
       (changeRefPayload cur new).take 8 = cur ++ List.replicate (8 - cur.length) 0xff ∧
       (changeRefPayload cur new).drop 8 = new ++ List.replicate (8 - new.length) 0xff ∧
       (r.sw = 0x9000 → (change_ref a cur new (r :: rest)).2 = .ok ()) ∧
       (r.sw = 0x6983 → (change_ref a cur new (r :: rest)).2 = .error .PinLocked) ∧
       (r.sw / 256 = 0x63 → (r.sw % 256) / 16 = 0xc →
         (change_ref a cur new (r :: rest)).2 = .error (.WrongPin (r.sw % 16))) ∧
       (r.sw ≠ 0x9000 → r.sw ≠ 0x6983 →
         ¬(r.sw / 256 = 0x63 ∧ (r.sw % 256) / 16 = 0xc) →
         (change_ref a cur new (r :: rest)).2 = .error .GenericError))) := by
  constructor
  · intro h
    have h' : CB_PIN_MAX < cur.length ∨ CB_PIN_MAX < new.length := by
      simpa [CB_PIN_MAX] using h
    simp [change_ref, h']
  · intro hc hn
    have h' : ¬ (CB_PIN_MAX < cur.length ∨ CB_PIN_MAX < new.length) := by
      simp [CB_PIN_MAX]; omega
    have hcurlen : (cur ++ List.replicate (8 - cur.length) 0xff).length = 8 := by
      simp; omega
    have hpay : (changeRefPayload cur new).length = 16 := by
      simp [changeRefPayload, CB_PIN_MAX]; omega
    have hsingle := transferData_single (changeRefTempl a) (changeRefPayload cur new)
      0xFF r rest (by omega) hcla
    have htake : (changeRefPayload cur new).take 8 =
        cur ++ List.replicate (8 - cur.length) 0xff :=
      take8_of_len8 _ _ hcurlen
    have hdrop : (changeRefPayload cur new).drop 8 =
        new ++ List.replicate (8 - new.length) 0xff :=
      drop8_of_len8 _ _ hcurlen
    refine ⟨?_, hpay, htake, hdrop, ?_, ?_, ?_, ?_⟩
    · simp [change_ref, h', hsingle, finalFrame]
    · intro h
      simp [change_ref, h', hsingle, swordsOf, h]
    · intro h
      simp [change_ref, h', hsingle, swordsOf, h]
    · intro h1 h2
      have hne : r.sw ≠ 0x9000 := by omega
      have hne2 : r.sw ≠ 0x6983 := by omega
      have hne3 : r.sw ≠ 0x6982 := by omega
      have hne4 : r.sw ≠ 0x6a88 := by omega
      simp [change_ref, h', hsingle, swordsOf, hne, hne2, hne3, hne4, h1, h2]
    · intro h1 h2 h3
      simp [change_ref, h', hsingle, swordsOf, h1, h2]
      split_ifs with h4 h5 <;> simp_all

/-- Claim C5, witness: an oversized current PIN is rejected, and a
2-byte/2-byte change against a `0x6983` response sends the single
16-byte padded payload and reports `PinLocked`. -/
theorem change_ref_spec_witness :
    change_ref .ChangePin [1, 2, 3, 4, 5, 6, 7, 8, 9] [1] [⟨0x9000, []⟩] =
      ([], .error .SizeError) ∧
    (change_ref .ChangePin [1, 2] [3, 4] [⟨0x6983, []⟩]).1.map APDUFrame.data =
      [changeRefPayload [1, 2] [3, 4]] ∧
    (changeRefPayload [1, 2] [3, 4]).length = 16 ∧
    (change_ref .ChangePin [1, 2] [3, 4] [⟨0x6983, []⟩]).2 = .error .PinLocked :=
  ⟨(change_ref_spec .ChangePin [1, 2, 3, 4, 5, 6, 7, 8, 9] [1] ⟨0x9000, []⟩ []
      (by norm_num)).1 (by simp),
   ((change_ref_spec .ChangePin [1, 2] [3, 4] ⟨0x6983, []⟩ [] (by norm_num)).2
      (by simp) (by simp)).1,
   ((change_ref_spec .ChangePin [1, 2] [3, 4] ⟨0x6983, []⟩ [] (by norm_num)).2
      (by simp) (by simp)).2.1,
   ((change_ref_spec .ChangePin [1, 2] [3, 4] ⟨0x6983, []⟩ [] (by norm_num)).2
      (by simp) (by simp)).2.2.2.2.2.1 rfl⟩

/-- Claim C6: for a major version below 5, `get_serial` issues exactly
the three frames select-legacy-applet, legacy-serial-command,
reselect-PIV-applet, in that order, and a non-success status at any
step aborts with a generic failure before the remaining frames are
issued; for major version 5 or above it issues exactly one frame; on
success either path decodes the serial as a 4-byte big-endian integer
from the serial response's payload. -/
theorem get_serial_spec (v : Version) (r1 r2 r3 r : Response)
    (rest : List Response) :
    (v.major < 5 →
      ((r1.sw ≠ 0x9000 → get_serial v (r1 :: r2 :: r3 :: rest) =
         ([selectFrame YK_AID], .err .GenericError)) ∧
       (r1.sw = 0x9000 → r2.sw ≠ 0x9000 → get_serial v (r1 :: r2 :: r3 :: rest) =
         ([selectFrame YK_AID, serialYkFrame], .err .GenericError)) ∧
       (r1.sw = 0x9000 → r2.sw = 0x9000 → r3.sw ≠ 0x9000 →
         get_serial v (r1 :: r2 :: r3 :: rest) =
         ([selectFrame YK_AID, serialYkFrame, selectFrame PIV_AID],
          .err .GenericError)) ∧
       (r1.sw = 0x9000 → r2.sw = 0x9000 → r3.sw = 0x9000 → 4 ≤ r2.data.length →
         get_serial v (r1 :: r2 :: r3 :: rest) =
         ([selectFrame YK_AID, serialYkFrame, selectFrame PIV_AID],
          .ok (u32be (r2.data.take 4)))))) ∧
    (5 ≤ v.major →
      ((r.sw ≠ 0x9000 → get_serial v (r :: rest) =
         ([serialPivFrame], .err .GenericError)) ∧
       (r.sw = 0x9000 → 4 ≤ r.data.length → get_serial v (r :: rest) =
         ([serialPivFrame], .ok (u32be (r.data.take 4)))))) := by
  constructor
  · intro hv
    refine ⟨?_, ?_, ?_, ?_⟩
    · intro h1
      simp [get_serial, hv, h1]
    · intro h1 h2
      simp [get_serial, hv, h1, h2]
    · intro h1 h2 h3
      simp [get_serial, hv, h1, h2, h3]
    · intro h1 h2 h3 h4
      have htk : (r2.data.take 4).length = 4 := by simp; omega
      simp [get_serial, hv, h1, h2, h3, decodeSerial, Nat.not_lt.mpr h4, tryInto4, htk]
  · intro hv
    have hv' : ¬ v.major < 5 := by omega
    constructor
    · intro h1
      simp [get_serial, hv', h1]
    · intro h1 h2
      have htk : (r.data.take 4).length = 4 := by simp; omega
      simp [get_serial, hv', h1, decodeSerial, Nat.not_lt.mpr h2, tryInto4, htk]

/-- Claim C6, witness: a version-4 run with all three steps
succeeding, an aborted version-4 run, and a version-5 run. -/
theorem get_serial_spec_witness :
    get_serial ⟨4, 0, 0⟩ [⟨0x9000, []⟩, ⟨0x9000, [1, 2, 3, 4, 9]⟩, ⟨0x9000, []⟩] =
      ([selectFrame YK_AID, serialYkFrame, selectFrame PIV_AID],
       .ok (u32be ([1, 2, 3, 4, 9].take 4))) ∧
    get_serial ⟨4, 0, 0⟩ [⟨0x6a88, []⟩, ⟨0x9000, [1, 2, 3, 4]⟩, ⟨0x9000, []⟩] =
      ([selectFrame YK_AID], .err .GenericError) ∧
    get_serial ⟨5, 2, 1⟩ [⟨0x9000, [0, 0, 1, 0]⟩] =
      ([serialPivFrame], .ok (u32be ([0, 0, 1, 0].take 4))) :=
  ⟨((get_serial_spec ⟨4, 0, 0⟩ ⟨0x9000, []⟩ ⟨0x9000, [1, 2, 3, 4, 9]⟩ ⟨0x9000, []⟩
      ⟨0, []⟩ []).1 (by norm_num)).2.2.2 rfl rfl rfl (by simp),
   ((get_serial_spec ⟨4, 0, 0⟩ ⟨0x6a88, []⟩ ⟨0x9000, [1, 2, 3, 4]⟩ ⟨0x9000, []⟩
      ⟨0, []⟩ []).1 (by norm_num)).1 (by norm_num),
   ((get_serial_spec ⟨5, 2, 1⟩ ⟨0x9000, []⟩ ⟨0x9000, []⟩ ⟨0x9000, []⟩
      ⟨0x9000, [0, 0, 1, 0]⟩ []).2 (by norm_num)).2 rfl (by simp)⟩

/-- Claim C9: when the serial-retrieval response reports success but
carries fewer than 4 payload bytes, `get_serial` panics (the slice
`response.data()[..4]` is out of bounds) instead of returning an
error; and the `SizeError` branch attached by `map_err` is
unreachable: `get_serial` never returns a size error, because
converting the 4-byte slice to a 4-byte array cannot fail. -/
theorem get_serial_short_payload (v : Version) (r1 r2 r3 r : Response)
    (rest : List Response) :
    (v.major < 5 → r1.sw = 0x9000 → r2.sw = 0x9000 → r3.sw = 0x9000 →
      r2.data.length < 4 →
      (get_serial v (r1 :: r2 :: r3 :: rest)).2 = .panicked) ∧
    (5 ≤ v.major → r.sw = 0x9000 → r.data.length < 4 →
      (get_serial v (r :: rest)).2 = .panicked) ∧
    (∀ (v' : Version) (device : List Response),
      (get_serial v' device).2 ≠ .err .SizeError) := by
  have hdec : ∀ d : List Nat, decodeSerial d ≠ .err .SizeError := by
    intro d
    unfold decodeSerial
    split_ifs with h
    · simp
    · have htk : (d.take 4).length = 4 := by simp; omega
      simp [tryInto4, htk]
  refine ⟨?_, ?_, ?_⟩
  · intro hv h1 h2 h3 h4
    simp [get_serial, hv, h1, h2, h3, decodeSerial, h4]
  · intro hv h1 h2
    have hv' : ¬ v.major < 5 := by omega
    simp [get_serial, hv', h1, decodeSerial, h2]
  · intro v' device
    unfold get_serial
    split_ifs with hv
    · match device with
      | [] => simp
      | [a] => by_cases h : a.sw = 0x9000 <;> simp [h]
      | [a, b] =>
        by_cases h : a.sw = 0x9000 <;> by_cases h2 : b.sw = 0x9000 <;> simp [h, h2]
      | a :: b :: c :: tl =>
        by_cases h : a.sw = 0x9000 <;> by_cases h2 : b.sw = 0x9000 <;>
          by_cases h3 : c.sw = 0x9000 <;> simp [h, h2, h3, hdec]
    · match device with
      | [] => simp
      | a :: tl => by_cases h : a.sw = 0x9000 <;> simp [h, hdec]

/-- Claim C9, witness: a version-5 run whose success response carries
only 2 bytes panics; and that same call is not a size error. -/
theorem get_serial_short_payload_witness :
    (get_serial ⟨5, 0, 0⟩ [⟨0x9000, [1, 2]⟩]).2 = .panicked ∧
    (get_serial ⟨5, 0, 0⟩ [⟨0x9000, [1, 2]⟩]).2 ≠ .err .SizeError :=
  ⟨(get_serial_short_payload ⟨5, 0, 0⟩ ⟨0x9000, []⟩ ⟨0x9000, []⟩ ⟨0x9000, []⟩
      ⟨0x9000, [1, 2]⟩ []).2.1 (by norm_num) rfl (by simp),
   (get_serial_short_payload ⟨5, 0, 0⟩ ⟨0x9000, []⟩ ⟨0x9000, []⟩ ⟨0x9000, []⟩
      ⟨0x9000, [1, 2]⟩ []).2.2 ⟨5, 0, 0⟩ [⟨0x9000, [1, 2]⟩]⟩

/-- Against a device that answers every frame with a bare success
(status `0x9000`, no payload), the outbound loop sends
`max 1 (ceil (L / 255))` frames, all but the last under class `0x10`
and the last under the template's class byte, and the chunks
concatenate back to the input. -/
theorem transferOut_allSuccess (templ : List Nat) (maxOut : Nat) :
    ∀ (device : List Response) (inData : List Nat),
      (∀ r ∈ device, r = ⟨0x9000, []⟩) →
      max 1 ((inData.length + 254) / 255) ≤ device.length →
      ∃ fs dev,
        transferOut templ maxOut device inData [] = (fs, dev, .ok (.done 0x9000 [])) ∧
        fs.length = max 1 ((inData.length + 254) / 255) ∧
        fs.map APDUFrame.cla = List.replicate (fs.length - 1) 0x10 ++ [templ.getD 0 0] ∧
        (fs.map APDUFrame.data).flatten = inData := by
  intro device
  induction device with
  | nil =>
    intro inData hdev hn
    simp only [List.length_nil, Nat.le_zero] at hn
    have h1 : 1 ≤ max 1 ((inData.length + 254) / 255) := le_max_left _ _
    omega
  | cons r rest ih =>
    intro inData hdev hn
    obtain rfl : r = ⟨0x9000, []⟩ := hdev r (by simp)
    by_cases hmore : 255 < inData.length
    · have hq2 : 2 ≤ (inData.length + 254) / 255 := by omega
      have hmax : max 1 ((inData.length + 254) / 255) = (inData.length + 254) / 255 :=
        max_eq_right (by omega)
      have hn' : (inData.length + 254) / 255 ≤ rest.length + 1 := by
        rw [hmax] at hn
        simpa using hn
      have hdropmax : max 1 (((inData.drop 255).length + 254) / 255) =
          (inData.length + 254) / 255 - 1 := by
        rw [List.length_drop]
        rcases Nat.le_total ((inData.length - 255 + 254) / 255) 1 with h | h
        · have : (inData.length + 254) / 255 = 2 := by omega
          rw [max_eq_left h]
          omega
        · rw [max_eq_right h]
          omega
      obtain ⟨fs', dev', heq, hlen, hcla, hjoin⟩ :=
        ih (inData.drop 255) (fun x hx => hdev x (by simp [hx]))
          (by rw [hdropmax]; omega)
      have hfs1 : 1 ≤ fs'.length := by
        rw [hlen]
        exact le_max_left _ _
      refine ⟨contFrame templ (inData.take 255) :: fs', dev', ?_, ?_, ?_, ?_⟩
      · simp [transferOut, hmore, heq]
      · simp only [List.length_cons, hlen, hdropmax, hmax]
        omega
      · simp only [List.map_cons, contFrame, List.length_cons]
        rw [hcla]
        have : fs'.length + 1 - 1 = (fs'.length - 1) + 1 := by omega
        rw [this, List.replicate_succ]
        simp [contFrame]
      · simp only [List.map_cons, contFrame, List.flatten_cons]
        rw [hjoin]
        exact List.take_append_drop 255 inData
    · refine ⟨[finalFrame templ inData], rest, ?_, ?_, ?_, ?_⟩
      · simp [transferOut, hmore]
      · have : (inData.length + 254) / 255 ≤ 1 := by omega
        simp [max_eq_left this]
      · simp [finalFrame]
      · simp [finalFrame]

/-- Claim C1: for every payload and every 4-byte command template,
driven by a device that accepts every frame, `transfer_data` issues
exactly `ceil (L / 255)` outbound frames (1 when `L = 0`); every frame
but the last carries the continuation class byte `0x10`, the last
carries the template's own class byte, and the concatenation of the
frames' data fields in send order is the input payload. -/
theorem transfer_data_chunking (templ inData : List Nat) (maxOut : Nat)
    (device : List Response) (hT : templ.length = 4)
    (hdev : ∀ r ∈ device, r = ⟨0x9000, []⟩)
    (hn : max 1 ((inData.length + 254) / 255) ≤ device.length) :
    (transferData templ inData maxOut device).1.length =
      max 1 ((inData.length + 254) / 255) ∧
    (transferData templ inData maxOut device).1.map APDUFrame.cla =
      List.replicate ((transferData templ inData maxOut device).1.length - 1) 0x10 ++
        [templ.getD 0 0] ∧
    ((transferData templ inData maxOut device).1.map APDUFrame.data).flatten = inData := by
  obtain ⟨fs, dev, heq, hlen, hcla, hjoin⟩ :=
    transferOut_allSuccess templ maxOut device inData hdev hn
  have hexit := transferIn_exit maxOut dev 0x9000 [] (by norm_num)
  have htd : transferData templ inData maxOut device = (fs, .ok ⟨0x9000, []⟩) := by
    simp [transferData, heq, hexit]
  rw [htd]
  exact ⟨hlen, hcla, hjoin⟩

/-- Claim C1, witness: a 300-byte payload against two accepting
responses is sent as two frames — 255 bytes under class `0x10`, then
45 bytes under the template's class byte `7` — that concatenate back
to the payload. -/
theorem transfer_data_chunking_witness :
    (transferData [7, 1, 2, 3] (List.replicate 300 9) 0
        (List.replicate 2 ⟨0x9000, []⟩)).1.length =
      max 1 (((List.replicate (300:Nat) (9:Nat)).length + 254) / 255) ∧
    (transferData [7, 1, 2, 3] (List.replicate 300 9) 0
        (List.replicate 2 ⟨0x9000, []⟩)).1.map APDUFrame.cla =
      List.replicate ((transferData [7, 1, 2, 3] (List.replicate 300 9) 0
        (List.replicate 2 ⟨0x9000, []⟩)).1.length - 1) 0x10 ++
        [List.getD [7, 1, 2, 3] 0 0] ∧
    ((transferData [7, 1, 2, 3] (List.replicate 300 9) 0
        (List.replicate 2 ⟨0x9000, []⟩)).1.map APDUFrame.data).flatten =
      List.replicate 300 9 :=
  transfer_data_chunking [7, 1, 2, 3] (List.replicate 300 9) 0
    (List.replicate 2 ⟨0x9000, []⟩) (by simp)
    (by
      intro r hr
      simpa using List.eq_of_mem_replicate hr)
    (by norm_num)

/-- Claim C2, counterexample: a single empty-payload command with
ceiling `max_out = 10` whose one response carries 300 payload bytes.
The accumulated output (300 bytes) exceeds the ceiling, yet
`transfer_data` returns it as a success — no size error is raised,
because the outbound guard is skipped while the accumulator is empty. -/
theorem transfer_data_ceiling_cex :
    (transferData [0, 0xcb, 0x3f, 0xff] [] 10
        [⟨0x9000, List.replicate 300 1⟩]).2 =
      .ok ⟨0x9000, List.replicate 300 1⟩ ∧
    10 < (List.replicate (300:Nat) (1:Nat)).length ∧
    ∀ e, (transferData [0, 0xcb, 0x3f, 0xff] [] 10
        [⟨0x9000, List.replicate 300 1⟩]).2 ≠ .error e := by
  have h : (transferData [0, 0xcb, 0x3f, 0xff] [] 10
      [⟨0x9000, List.replicate 300 1⟩]).2 =
      .ok ⟨0x9000, List.replicate 300 1⟩ := rfl
  refine ⟨h, by simp, fun e he => ?_⟩
  rw [h] at he
  exact Except.noConfusion he

/-- Claim C2 (amended): the size-ceiling abort behaves as claimed only
in the inbound continuation phase — there, as soon as accumulated
output plus the incoming payload would exceed `max_out`, the call
fails with a size error and no frame is transmitted after the one that
elicited that response.  In the outbound phase the guard instead fires
only when the accumulator was nonempty before the current response and
the PREVIOUSLY accumulated length minus the current response's payload
length (wrapping `usize` subtraction) exceeds `max_out`; when it does
fire, the current frame is likewise the last one transmitted. -/
theorem transfer_data_size_ceiling (maxOut sw : Nat) (outData outPrev : List Nat)
    (r : Response) (rest : List Response) (templ inData : List Nat) :
    (sw / 256 = 0x61 → (r.sw = 0x9000 ∨ r.sw / 256 = 0x61) →
      maxOut < outData.length + r.data.length →
      transferIn maxOut (r :: rest) sw outData =
        ([getMoreFrame], .error .SizeError)) ∧
    ((r.sw = 0x9000 ∨ r.sw / 256 = 0x61) → outPrev ≠ [] →
      maxOut < usizeSub outPrev.length r.data.length →
      transferOut templ maxOut (r :: rest) inData outPrev =
        ([if 255 < inData.length then contFrame templ (inData.take 255)
          else finalFrame templ inData], rest, .error .SizeError)) := by
  constructor
  · intro h1 h2 h3
    have hne : ¬(r.sw ≠ 0x9000 ∧ r.sw / 256 ≠ 0x61) := by tauto
    simp [transferIn, h1, hne, h3]
  · intro h1 h2 h3
    have hne : ¬(r.sw ≠ 0x9000 ∧ r.sw / 256 ≠ 0x61) := by tauto
    by_cases hmore : 255 < inData.length <;>
      simp [transferOut, hne, h2, h3, hmore]

/-- Claim C2, witness: a concrete inbound overrun (1 accumulated byte
plus an 11-byte continuation payload against ceiling 10) and a
concrete outbound overrun (2 previously accumulated bytes, an
empty-payload response, ceiling 0) both abort with a size error after
the current frame. -/
theorem transfer_data_size_ceiling_witness :
    transferIn 10 [⟨0x9000, List.replicate 11 5⟩] 0x6100 [1] =
      ([getMoreFrame], .error .SizeError) ∧
    transferOut [0, 1, 2, 3] 0 [⟨0x9000, []⟩] [] [1, 2] =
      ([finalFrame [0, 1, 2, 3] []], [], .error .SizeError) :=
  ⟨(transfer_data_size_ceiling 10 0x6100 [1] [] ⟨0x9000, List.replicate 11 5⟩ []
      [] []).1 (by norm_num) (Or.inl rfl) (by simp),
   by
    have h := (transfer_data_size_ceiling 0 0 [] [1, 2] ⟨0x9000, []⟩ []
      [0, 1, 2, 3] []).2 (Or.inl rfl) (by simp) (by norm_num [usizeSub])
    simpa using h⟩

/-- Claim C3, counterexample: an empty-payload command whose first
response is `0x6103` with payload `[1, 2, 3]` and whose continuation
response is `0x6a88` with payload `[9]` — so N = 1 responses of class
`0x61` followed by a non-`0x61` response.  One get-more frame is
issued, as the claim says, but the returned payload is empty rather
than the concatenation `[1, 2, 3, 9]` of all payloads in arrival
order: the terminating failure discards the accumulated output. -/
theorem transfer_data_continuation_cex :
    transferData [0, 0xcb, 0x3f, 0xff] [] 1000
        [⟨0x6103, [1, 2, 3]⟩, ⟨0x6a88, [9]⟩] =
      ([finalFrame [0, 0xcb, 0x3f, 0xff] [], getMoreFrame], .ok ⟨0x6a88, []⟩) ∧
    ([] : List Nat) ≠ [1, 2, 3] ++ [9] := by
  exact ⟨rfl, by simp⟩

/-- The inbound continuation loop against a run of `0x61`-classed
responses followed by one terminating response: one get-more frame per
`0x61` status (including the status that entered the loop), and the
final result keeps the accumulated concatenation only when the
terminator is a success — any other terminator yields that status with
an empty payload. -/
theorem transferIn_run (maxOut : Nat) :
    ∀ (rs : List Response) (sw : Nat) (outData : List Nat) (r : Response)
      (rest : List Response),
      sw / 256 = 0x61 →
      (∀ x ∈ rs, x.sw / 256 = 0x61) →
      r.sw / 256 ≠ 0x61 →
      outData.length + ((rs.map Response.data).flatten).length + r.data.length ≤ maxOut →
      transferIn maxOut (rs ++ r :: rest) sw outData =
        (List.replicate (rs.length + 1) getMoreFrame,
         .ok (if r.sw = 0x9000
              then ⟨r.sw, outData ++ (rs.map Response.data).flatten ++ r.data⟩
              else ⟨r.sw, []⟩)) := by
  intro rs
  induction rs with
  | nil =>
    intro sw outData r rest h1 _ hr hfit
    rcases Decidable.em (r.sw = 0x9000) with h | h
    · have hne : ¬(r.sw ≠ 0x9000 ∧ r.sw / 256 ≠ 0x61) := by tauto
      have hsz : ¬ maxOut < outData.length + r.data.length := by
        simp at hfit
        omega
      have hexit := transferIn_exit maxOut rest r.sw (outData ++ r.data)
        (by rw [h]; norm_num)
      rw [h] at hexit
      simp [transferIn, h1, hne, hsz, hexit, h]
    · have hne : r.sw ≠ 0x9000 ∧ r.sw / 256 ≠ 0x61 := ⟨h, hr⟩
      simp [transferIn, h1, hne, h]
  | cons x rs' ih =>
    intro sw outData r rest h1 hrs hr hfit
    have hx : x.sw / 256 = 0x61 := hrs x (by simp)
    have hne : ¬(x.sw ≠ 0x9000 ∧ x.sw / 256 ≠ 0x61) := by tauto
    have hsz : ¬ maxOut < outData.length + x.data.length := by
      simp [List.flatten_cons] at hfit
      omega
    have hrec := ih x.sw (outData ++ x.data) r rest hx
      (fun y hy => hrs y (by simp [hy])) hr
      (by simp [List.flatten_cons] at hfit ⊢; omega)
    rcases Decidable.em (r.sw = 0x9000) with h | h
    · simp only [h, if_pos] at hrec ⊢
      simp [transferIn, h1, hne, hsz, hrec, List.replicate_succ, List.flatten_cons]
    · simp only [h, if_neg, ite_false] at hrec ⊢
      simp [transferIn, h1, hne, hsz, hrec, List.replicate_succ]

/-- Claim C3 (amended): for a single-chunk outbound run whose
responses have status class `0x61` for the first N (the outbound
response and the first N−1 continuation responses) and not `0x61` for
the (N+1)th, exactly N get-more frames are issued after the single
outbound frame, and the returned status is that of the last frame.
The returned payload is the concatenation of all response payloads in
arrival order only when that last status is success; a non-success
terminator returns an empty payload, discarding the accumulated data
and the terminating response's own payload. -/
theorem transfer_data_continuation_amended (templ inData : List Nat)
    (maxOut : Nat) (r0 r : Response) (rs rest : List Response)
    (hT : templ.length = 4) (hIn : inData.length ≤ 255)
    (h0 : r0.sw / 256 = 0x61)
    (hrs : ∀ x ∈ rs, x.sw / 256 = 0x61)
    (hr : r.sw / 256 ≠ 0x61)
    (hfit : (((r0 :: rs).map Response.data).flatten).length + r.data.length ≤ maxOut) :
    transferData templ inData maxOut (r0 :: (rs ++ r :: rest)) =
      (finalFrame templ inData :: List.replicate (rs.length + 1) getMoreFrame,
       .ok (if r.sw = 0x9000
            then ⟨r.sw, ((r0 :: rs).map Response.data).flatten ++ r.data⟩
            else ⟨r.sw, []⟩)) := by
  have hmore : ¬ 255 < inData.length := by omega
  have hne0 : ¬(r0.sw ≠ 0x9000 ∧ r0.sw / 256 ≠ 0x61) := by tauto
  have hrun := transferIn_run maxOut rs r0.sw r0.data r rest h0 hrs hr
    (by simp [List.flatten_cons] at hfit ⊢; omega)
  rcases Decidable.em (r.sw = 0x9000) with h | h
  · simp only [h, if_pos] at hrun ⊢
    simp [transferData, transferOut, hmore, hne0, hrun, List.flatten_cons,
      List.append_assoc]
  · simp only [h, if_neg, ite_false] at hrun ⊢
    simp [transferData, transferOut, hmore, hne0, hrun]

/-- Claim C3, witness for the amended theorem: a run with N = 2
responses of class `0x61` (payloads `[1, 2]` and `[3]`) terminated by
a success carrying `[4, 5]` issues two get-more frames and returns the
full concatenation `[1, 2, 3, 4, 5]`. -/
theorem transfer_data_continuation_amended_witness :
    transferData [0, 0xcb, 0x3f, 0xff] [] 100
        [⟨0x6102, [1, 2]⟩, ⟨0x6101, [3]⟩, ⟨0x9000, [4, 5]⟩] =
      (finalFrame [0, 0xcb, 0x3f, 0xff] [] :: List.replicate 2 getMoreFrame,
       .ok ⟨0x9000, [1, 2, 3, 4, 5]⟩) := by
  have h := transfer_data_continuation_amended [0, 0xcb, 0x3f, 0xff] [] 100
    ⟨0x6102, [1, 2]⟩ ⟨0x9000, [4, 5]⟩ [⟨0x6101, [3]⟩] []
    (by decide) (by decide) (by norm_num)
    (by intro x hx; simp at hx; rw [hx]; norm_num)
    (by norm_num) (by simp)
  simpa using h

end YkPiv
